import Mathlib

/-!
Shallow embedding of the telegram_history exporter (src/main.py) and the parts of its
environment that its behaviour depends on: the Telethon chat client's documented
iteration semantics, Python's json.dump, Python's csv.writer, and datetime.strptime.

Timestamps are modelled as integers (seconds); message ids as naturals.  The chat
client is modelled by the full list of the chat's messages in ascending id/date order,
from which the three iter_messages call shapes used by the source are derived.
-/

/-- Raw message as yielded by the chat client (telethon Message): id, date,
sender_id, sender username (None when message.sender is None), reply_to_msg_id,
text.  Fields the source reads, nothing more. -/
structure RawMsg where
  id : Nat
  date : Int
  sender_id : Option Int
  sender_username : Option String
  reply_to_msg_id : Option Nat
  message : String
deriving DecidableEq

/-- Rendering of a timestamp used for the date_str field (source: message.date.isoformat()).
The text of the rendering is abstracted as the decimal form of the instant; no claim
depends on the text of a date, only on which record it belongs to. -/
def isoformat (t : Int) : String := toString t

/-- The Message dataclass of src/main.py (lines 90-111). -/
structure Message where
  id : Nat
  date : Int
  date_str : String
  sender_id : Option Int
  sender_username : Option String
  reply_to_msg_id : Option Nat
  message : String
deriving DecidableEq

/-- Construction of the Message dataclass from a raw client message, exactly the
keyword arguments of the Message(...) call in fetch_history (lines 221-229). -/
def mkMessage (m : RawMsg) : Message :=
  { id := m.id
    date := m.date
    date_str := isoformat m.date
    sender_id := m.sender_id
    sender_username := m.sender_username
    reply_to_msg_id := m.reply_to_msg_id
    message := m.message }

/-- The chat client, modelled by the chat's full message list in ascending
id (and date) order. -/
structure ChatClient where
  msgs : List RawMsg
deriving DecidableEq

/-- The TelegramGroup object (lines 114-127): a client handle and the accumulated
history list (group_name only routes the request and is omitted). -/
structure TelegramGroup where
  client : ChatClient
  history : List Message
deriving DecidableEq

/-- Modelled from the Telethon client's documented semantics: iter_messages with
reverse=True and offset_date=d yields messages from oldest to newest starting
around d.  The stream is the chat's messages dated at or after d, in ascending
order.  (Whether the exact boundary instant is included is immaterial to every
claim below; the source re-checks the date of each item anyway.) -/
def iterMessagesForward (c : ChatClient) (offsetDate : Int) : List RawMsg :=
  c.msgs.filter (fun m => decide (offsetDate ≤ m.date))

/-- Modelled from the Telethon client's documented semantics: iter_messages with
offset_date=d (no reverse) yields messages previous to d, newest first: the
chat's messages dated strictly before d, in descending order. -/
def iterMessagesBackward (c : ChatClient) (offsetDate : Int) : List RawMsg :=
  (c.msgs.filter (fun m => decide (m.date < offsetDate))).reverse

/-- Modelled from the Telethon client's documented semantics: iter_messages with
reverse=True, min_id=a, max_id=b and an optional limit yields, oldest first, at
most limit messages whose id lies strictly between a and b — the documentation
states for both bounds that messages with an id equal to the bound are excluded. -/
def iterMessagesRange (c : ChatClient) (minId maxId : Nat) (limit : Option Nat) :
    List RawMsg :=
  let filtered := c.msgs.filter (fun m => decide (minId < m.id) && decide (m.id < maxId))
  match limit with
  | none => filtered
  | some l => filtered.take l

/-- The find_min_id loop of _find_message_id (lines 144-157), instrumented with the
number of loop iterations performed: returns the id of the first streamed message
whose date lies in the window together with how many messages were examined before
the loop ended.  The loop breaks only when the window test succeeds; a failing test
falls through to the next iteration. -/
def findMinIdScan (start_date end_date : Int) : List RawMsg → Option Nat × Nat
  | [] => (none, 0)
  | m :: rest =>
    if start_date ≤ m.date ∧ m.date < end_date then (some m.id, 1)
    else ((findMinIdScan start_date end_date rest).1,
          (findMinIdScan start_date end_date rest).2 + 1)

/-- The find_max_id loop of _find_message_id (lines 159-172), instrumented the same
way: first streamed message dated strictly before end_date, with the iteration count. -/
def findMaxIdScan (end_date : Int) : List RawMsg → Option Nat × Nat
  | [] => (none, 0)
  | m :: rest =>
    if m.date < end_date then (some m.id, 1)
    else ((findMaxIdScan end_date rest).1, (findMaxIdScan end_date rest).2 + 1)

/-- The _find_message_id method (lines 129-174): dispatches on the two flags, scanning
the forward stream from start_date for the min bound and the backward stream from
end_date for the max bound; with both flags false the source raises ValueError,
modelled by the outer none. -/
def find_message_id (c : ChatClient) (start_date end_date : Int)
    (find_min_id find_max_id : Bool) : Option (Option Nat) :=
  if find_min_id then
    some (findMinIdScan start_date end_date (iterMessagesForward c start_date)).1
  else if find_max_id then
    some (findMaxIdScan end_date (iterMessagesBackward c end_date)).1
  else none

/-- The min_id bound established by fetch_history's first _find_message_id call
(lines 189-193).  The flag pattern (true, false) never takes the ValueError branch,
so the outer option is collapsed with getD. -/
def minIdLookup (c : ChatClient) (start_date end_date : Int) : Option Nat :=
  (find_message_id c start_date end_date true false).getD none

/-- The max_id bound established by fetch_history's second _find_message_id call
(lines 195-199). -/
def maxIdLookup (c : ChatClient) (start_date end_date : Int) : Option Nat :=
  (find_message_id c start_date end_date false true).getD none

/-- Python truthiness of the optional message-id bounds as tested by
`if not min_id or not max_id` (line 201): None and 0 are both falsy. -/
def pyFalsyId : Option Nat → Bool
  | none => true
  | some n => n == 0

/-- The accumulation loop of fetch_history (lines 213-241): each streamed message
whose date satisfies start_date <= date < end_date is turned into a Message record
and appended; any other message is logged and skipped (continue), never recorded
and never fatal. -/
def fetchLoop (start_date end_date : Int) : List RawMsg → List Message
  | [] => []
  | m :: rest =>
    if start_date ≤ m.date ∧ m.date < end_date then
      mkMessage m :: fetchLoop start_date end_date rest
    else fetchLoop start_date end_date rest

/-- The fetch_history method (lines 176-241) as a state transformer on the
TelegramGroup object.  It resolves the two id bounds, short-circuits (returning the
object untouched) when either bound is falsy, and otherwise replaces self.history
with the records accumulated from the ranged stream: the source passes min_id
unchanged and max_id + 1 to the client, whose two bounds are exclusive. -/
def fetch_history (g : TelegramGroup) (start_date end_date : Int)
    (limit : Option Nat) : TelegramGroup :=
  let min_id := minIdLookup g.client start_date end_date
  let max_id := maxIdLookup g.client start_date end_date
  if pyFalsyId min_id || pyFalsyId max_id then g
  else
    let stream := iterMessagesRange g.client (min_id.getD 0) (max_id.getD 0 + 1) limit
    { g with history := fetchLoop start_date end_date stream }

/-- JSON values, the target of the export model. -/
inductive JSON where
  | null : JSON
  | jbool : Bool → JSON
  | jnum : Int → JSON
  | jstr : String → JSON
  | jarr : List JSON → JSON
  | jobj : List (String × JSON) → JSON

/-- Python repr of an optional string field of the dataclass: None, or the text in
single quotes (escaping inside the quotes is immaterial to every claim). -/
def pyReprOptStr : Option String → String
  | none => "None"
  | some s => "\x27" ++ s ++ "\x27"

/-- Python repr of an optional integer field: None or the decimal. -/
def pyReprOptInt : Option Int → String
  | none => "None"
  | some n => toString n

/-- Python repr of an optional natural field: None or the decimal. -/
def pyReprOptNat : Option Nat → String
  | none => "None"
  | some n => toString n

/-- Python repr of the datetime held in the date field; the datetime.datetime(...)
argument text is abstracted as the decimal instant. -/
def datetimeRepr (t : Int) : String := "datetime.datetime(" ++ toString t ++ ")"

/-- Python repr of a Message dataclass instance, as produced by str(...) on it:
the dataclass auto-generated repr listing every field. -/
def messageRepr (m : Message) : String :=
  "Message(id=" ++ toString m.id ++
  ", date=" ++ datetimeRepr m.date ++
  ", date_str=" ++ ("\x27" ++ m.date_str ++ "\x27") ++
  ", sender_id=" ++ pyReprOptInt m.sender_id ++
  ", sender_username=" ++ pyReprOptStr m.sender_username ++
  ", reply_to_msg_id=" ++ pyReprOptNat m.reply_to_msg_id ++
  ", message=" ++ ("\x27" ++ m.message ++ "\x27") ++ ")"

/-- Python values as fed to json.dump by save_json: the history list, whose
elements are Message dataclass instances (plus the primitive shapes json handles
natively, for completeness of the encoder model). -/
inductive PyVal where
  | pynone : PyVal
  | pyint : Int → PyVal
  | pystr : String → PyVal
  | pylist : List PyVal → PyVal
  | pymsg : Message → PyVal

mutual

/-- Model of json.dump(value, default=str, ensure_ascii=False): None, numbers and
strings map to their JSON forms (non-ASCII text carried through unchanged); lists
become arrays; any object the encoder does not support — in particular a Message
dataclass instance — is passed to the default hook, str, and therefore serialized
as a JSON string holding its repr. -/
def jsonEncode : PyVal → JSON
  | .pynone => .null
  | .pyint n => .jnum n
  | .pystr s => .jstr s
  | .pylist xs => .jarr (jsonEncodeList xs)
  | .pymsg m => .jstr (messageRepr m)

/-- Elementwise encoding of a Python list. -/
def jsonEncodeList : List PyVal → List JSON
  | [] => []
  | x :: xs => jsonEncode x :: jsonEncodeList xs

end

/-- The save_json method (lines 243-252): json.dump(self.history, f, default=str,
ensure_ascii=False, indent=2), modelled at the JSON-value level (the indentation
whitespace of the file text carries no information). -/
def save_json (history : List Message) : JSON :=
  jsonEncode (.pylist (history.map .pymsg))

/-- Replacement of every occurrence of one character by another, the effect of
str.replace with a one-character pattern (source: msg.message.replace on a newline). -/
def pyReplaceChar (c r : Char) (s : String) : String :=
  String.mk (s.data.map (fun x => if x = c then r else x))

/-- Deletion of every occurrence of one character, the effect of str.replace with a
one-character pattern and an empty replacement (source: the carriage-return strip). -/
def pyDeleteChar (c : Char) (s : String) : String :=
  String.mk (s.data.filter (fun x => x != c))

/-- The sanitized_message expression of save_csv (line 266):
msg.message.replace newline-with-space, then carriage-return removed. -/
def sanitizeMessage (s : String) : String :=
  pyDeleteChar (Char.ofNat 13) (pyReplaceChar (Char.ofNat 10) (Char.ofNat 32) s)

/-- Python csv.writer cell text for an optional integer: csv writes None as the
empty string, anything else via str. -/
def csvOptInt : Option Int → String
  | none => ""
  | some n => toString n

/-- Python csv.writer cell text for an optional natural. -/
def csvOptNat : Option Nat → String
  | none => ""
  | some n => toString n

/-- Python csv.writer cell text for an optional string. -/
def csvOptStr : Option String → String
  | none => ""
  | some s => s

/-- One data row written by save_csv (lines 265-276), in the column order of the
writerow call. -/
def csvRow (msg : Message) : List String :=
  [toString msg.id, msg.date_str, csvOptInt msg.sender_id,
   csvOptStr msg.sender_username, csvOptNat msg.reply_to_msg_id,
   sanitizeMessage msg.message]

/-- The save_csv method (lines 254-278), modelled as the list of rows written: the
fixed header row followed by one row per record. -/
def save_csv (history : List Message) : List (List String) :=
  ["id", "date", "sender_id", "sender_username", "reply_to", "message"]
    :: history.map csvRow

/-- Python datetime value: an instant in seconds together with the tzinfo attribute,
none for a naive datetime and some offset (0 = UTC) for an aware one. -/
structure PyDatetime where
  seconds : Int
  tz : Option Int
deriving DecidableEq

/-- Gregorian leap-year rule, as implemented by Python's datetime module. -/
def isLeapYear (y : Nat) : Bool :=
  (y % 4 == 0 && y % 100 != 0) || y % 400 == 0

/-- Length of a month in the proleptic Gregorian calendar. -/
def daysInMonth (y m : Nat) : Nat :=
  if m = 2 then (if isLeapYear y then 29 else 28)
  else if m = 4 ∨ m = 6 ∨ m = 9 ∨ m = 11 then 30
  else 31

/-- Days elapsed since 1970-01-01 for a civil date with year at least 1 (the
standard days-from-civil computation; all intermediate divisions act on
non-negative quantities for the years datetime accepts). -/
def epochDays (y m d : Nat) : Int :=
  let yAdj : Nat := if m ≤ 2 then y - 1 else y
  let era : Nat := yAdj / 400
  let yoe : Nat := yAdj - era * 400
  let mp : Nat := (m + 9) % 12
  let doy : Nat := (153 * mp + 2) / 5 + d - 1
  let doe : Nat := yoe * 365 + yoe / 4 - yoe / 100 + doy
  (((era * 146097 + doe) : Nat) : Int) - 719468

/-- Digit-group splitting on the hyphen, the shape the "%Y-%m-%d" format imposes. -/
def splitDash (s : String) : List (List Char) :=
  s.data.splitOnP (fun c => c = Char.ofNat 45)

/-- Decimal reading of one strptime field: nonempty, all digits. -/
def fieldToNat : List Char → Option Nat
  | [] => none
  | cs =>
    if cs.all (fun c => c.isDigit) then
      some (cs.foldl (fun acc c => acc * 10 + (c.toNat - 48)) 0)
    else none

/-- Model of datetime.strptime(s, "%Y-%m-%d"): three hyphen-separated digit groups
(year up to four digits, month and day up to two), validated against the calendar
(year within datetime's 1..9999, month 1..12, day within the month); none models
the ValueError strptime raises otherwise. -/
def parseYMD (s : String) : Option (Nat × Nat × Nat) :=
  match splitDash s with
  | [ys, ms, ds] =>
    match fieldToNat ys, fieldToNat ms, fieldToNat ds with
    | some y, some m, some d =>
      if ys.length ≤ 4 ∧ ms.length ≤ 2 ∧ ds.length ≤ 2 ∧
         1 ≤ y ∧ y ≤ 9999 ∧ 1 ≤ m ∧ m ≤ 12 ∧ 1 ≤ d ∧ d ≤ daysInMonth y m then
        some (y, m, d)
      else none
    | _, _, _ => none
  | _ => none

/-- Model of datetime.strptime(s, "%Y-%m-%d") as a value: midnight of the parsed
civil date, timezone-naive (strptime attaches no tzinfo). -/
def strptimeDate (s : String) : Option PyDatetime :=
  (parseYMD s).map (fun ymd => { seconds := 86400 * epochDays ymd.1 ymd.2.1 ymd.2.2, tz := none })

/-- Model of dt.replace(tzinfo=timezone.utc): the instant unchanged, tzinfo set to UTC. -/
def pyReplaceTzUtc (dt : PyDatetime) : PyDatetime :=
  { dt with tz := some 0 }

/-- Model of dt + timedelta(days=n). -/
def pyAddDays (dt : PyDatetime) (n : Int) : PyDatetime :=
  { dt with seconds := dt.seconds + 86400 * n }

/-- Model of datetime.now(timezone.utc) given the current instant: UTC-aware. -/
def pyNowUtc (nowSeconds : Int) : PyDatetime :=
  { seconds := nowSeconds, tz := some 0 }

/-- Python truthiness of an optional string argument as tested by `if args.day:`
and `if not args.start:`: None and the empty string are falsy. -/
def pyTruthyStr : Option String → Bool
  | none => false
  | some s => s != ""

/-- The three CLI arguments get_date_range reads (parse_args defaults all to None). -/
structure Args where
  day : Option String
  start : Option String
  end_ : Option String
deriving DecidableEq

/-- The get_date_range function (lines 281-310), parameterized by the current
instant.  A none result conflates the two no-window outcomes of the source: the
(None, None) return when both --day and --start are missing, and the ValueError
strptime raises on an unparseable date; no claim distinguishes them.  No ordering
check is performed anywhere in the source. -/
def get_date_range (args : Args) (nowSeconds : Int) : Option (PyDatetime × PyDatetime) :=
  if pyTruthyStr args.day then
    match strptimeDate (args.day.getD "") with
    | none => none
    | some d =>
      let start_date := pyReplaceTzUtc d
      some (start_date, pyAddDays start_date 1)
  else if pyTruthyStr args.start then
    match strptimeDate (args.start.getD "") with
    | none => none
    | some d =>
      let start_date := pyReplaceTzUtc d
      if pyTruthyStr args.end_ then
        match strptimeDate (args.end_.getD "") with
        | none => none
        | some d2 => some (start_date, pyReplaceTzUtc d2)
      else some (start_date, pyNowUtc nowSeconds)
  else none

/-- Ancillary constructor for the concrete instances used in the closed theorems below. -/
def rawM (i : Nat) (t : Int) : RawMsg :=
  { id := i, date := t, sender_id := some 7, sender_username := some "user1",
    reply_to_msg_id := none, message := "hello" }

/-- Chat of the specification's section-8 scenario: five messages, ids 1..5, dated 45,
60 and 90 minutes after the window start, one minute before the window end and one
minute past it, for the day-long window from instant 0 to instant 86400. -/
def chatScenario : ChatClient :=
  { msgs := [rawM 1 2700, rawM 2 3600, rawM 3 5400, rawM 4 86340, rawM 5 86460] }

/-- Group object over the scenario chat with no previously accumulated history. -/
def groupScenario : TelegramGroup := { client := chatScenario, history := [] }

/-- Stream whose very first message is already dated past the window end 50. -/
def streamLate : List RawMsg := [rawM 6 100, rawM 7 150]

/-- Stream holding one in-window and one out-of-window message for the window
from 0 to 100. -/
def streamMixed : List RawMsg := [rawM 1 50, rawM 8 100]

/-- Chat whose single in-window message carries id 0. -/
def chatZeroId : ChatClient := { msgs := [rawM 0 5] }

/-- Fresh group over the id-0 chat. -/
def groupZeroId : TelegramGroup := { client := chatZeroId, history := [] }

/-- Chat with no messages at all. -/
def chatEmpty : ChatClient := { msgs := [] }

/-- Fresh group over the empty chat. -/
def groupEmpty : TelegramGroup := { client := chatEmpty, history := [] }

/-- Group over the empty chat still holding one record from an earlier fetch. -/
def groupStale : TelegramGroup :=
  { client := chatEmpty, history := [mkMessage (rawM 3 42)] }

/-- Single record used by the JSON-export theorem. -/
def msgSolo : Message := mkMessage (rawM 1 2700)

/-- Record whose text holds an embedded newline. -/
def msgMultiline : Message := mkMessage
  { id := 9, date := 60, sender_id := some 7, sender_username := some "user1",
    reply_to_msg_id := none, message := "line1\nline2" }

/-- CLI arguments placing the end date before the start date. -/
def argsBackwards : Args :=
  { day := none, start := some "2025-01-02", end_ := some "2025-01-01" }

/-- CLI arguments selecting the single day 2025-01-01. -/
def argsDay : Args := { day := some "2025-01-01", start := none, end_ := none }

/-- Midnight 2025-01-01 UTC as an aware value (20089 days past the epoch). -/
def dt20250101 : PyDatetime := { seconds := 1735689600, tz := some 0 }

/-- Midnight 2025-01-02 UTC as an aware value. -/
def dt20250102 : PyDatetime := { seconds := 1735776000, tz := some 0 }

/-- Every record emitted by the accumulation loop passed its window test. -/
theorem mem_fetchLoop {start_date end_date : Int} {stream : List RawMsg} {m : Message}
    (hm : m ∈ fetchLoop start_date end_date stream) :
    start_date ≤ m.date ∧ m.date < end_date := by
  induction stream with
  | nil => simp [fetchLoop] at hm
  | cons a rest ih =>
    by_cases h : start_date ≤ a.date ∧ a.date < end_date
    · rw [fetchLoop, if_pos h] at hm
      rcases List.mem_cons.mp hm with h1 | h2
      · subst h1; exact ⟨h.1, h.2⟩
      · exact ih h2
    · rw [fetchLoop, if_neg h] at hm
      exact ih hm

/-- The accumulation loop is the window filter followed by record construction. -/
theorem fetchLoop_eq_filter (start_date end_date : Int) (stream : List RawMsg) :
    fetchLoop start_date end_date stream =
      (stream.filter
        (fun m => decide (start_date ≤ m.date ∧ m.date < end_date))).map mkMessage := by
  induction stream with
  | nil => rfl
  | cons a rest ih =>
    by_cases h : start_date ≤ a.date ∧ a.date < end_date
    · simp [fetchLoop, List.filter_cons, h, ih]
    · simp [fetchLoop, List.filter_cons, h, ih]

/-- The accumulation loop preserves an ascending-id input ordering. -/
theorem fetchLoop_pairwise {start_date end_date : Int} {stream : List RawMsg}
    (hs : stream.Pairwise (fun a b => a.id ≤ b.id)) :
    ((fetchLoop start_date end_date stream).map Message.id).Pairwise
      (fun a b => a ≤ b) := by
  rw [fetchLoop_eq_filter, List.map_map, List.pairwise_map]
  exact hs.filter _

/-- The ranged client stream preserves an ascending-id chat ordering. -/
theorem iterMessagesRange_pairwise {c : ChatClient} {a b : Nat} {lim : Option Nat}
    (hs : c.msgs.Pairwise (fun x y => x.id ≤ y.id)) :
    (iterMessagesRange c a b lim).Pairwise (fun x y => x.id ≤ y.id) := by
  unfold iterMessagesRange
  cases lim with
  | none => exact hs.filter _
  | some l => exact (hs.filter _).take

/-- C4: every record accumulated by the fetch loop satisfies the half-open window
invariant start <= timestamp < end, for every input stream — including streams the
id-range pre-filter let through imprecisely — and consequently so does every record
of the history a fresh group holds after fetch_history; out-of-window items are
skipped, never recorded and never fatal. -/
theorem C4_post_filter_invariant :
    (∀ (start_date end_date : Int) (stream : List RawMsg) (m : Message),
      m ∈ fetchLoop start_date end_date stream →
        start_date ≤ m.date ∧ m.date < end_date) ∧
    (∀ (g : TelegramGroup) (start_date end_date : Int) (lim : Option Nat),
      g.history = [] → ∀ m ∈ (fetch_history g start_date end_date lim).history,
        start_date ≤ m.date ∧ m.date < end_date) := by
  constructor
  · exact fun _ _ _ _ hm => mem_fetchLoop hm
  · intro g start_date end_date lim hfresh m hm
    by_cases hc : (pyFalsyId (minIdLookup g.client start_date end_date) ||
        pyFalsyId (maxIdLookup g.client start_date end_date)) = true
    · simp [fetch_history, hc, hfresh] at hm
    · simp only [fetch_history, hc, if_neg, Bool.not_eq_true] at hm
      exact mem_fetchLoop hm

/-- C4 witness: the in-window record of the mixed stream is accumulated and satisfies
the invariant at the window from 0 to 100. -/
theorem C4_post_filter_invariant_witness :
    (0 : Int) ≤ (mkMessage (rawM 1 50)).date ∧ (mkMessage (rawM 1 50)).date < 100 :=
  C4_post_filter_invariant.1 0 100 streamMixed (mkMessage (rawM 1 50)) (by decide)

/-- C8: when the chat's messages are in non-decreasing id order — so every stream the
client yields is — the accumulated history of a fresh group after fetch_history is in
non-decreasing id order. -/
theorem C8_ascending_order (g : TelegramGroup) (start_date end_date : Int)
    (lim : Option Nat) (hfresh : g.history = [])
    (hsorted : g.client.msgs.Pairwise (fun a b => a.id ≤ b.id)) :
    ((fetch_history g start_date end_date lim).history.map Message.id).Pairwise
      (fun a b => a ≤ b) := by
  by_cases hc : (pyFalsyId (minIdLookup g.client start_date end_date) ||
      pyFalsyId (maxIdLookup g.client start_date end_date)) = true
  · simp [fetch_history, hc, hfresh]
  · simp only [fetch_history, hc, if_neg, Bool.not_eq_true]
    exact fetchLoop_pairwise (iterMessagesRange_pairwise hsorted)

/-- C8 witness: over the scenario chat, the accumulated ids come out non-decreasing. -/
theorem C8_ascending_order_witness :
    ((fetch_history groupScenario 0 86400 none).history.map Message.id).Pairwise
      (fun a b => a ≤ b) :=
  C8_ascending_order groupScenario 0 86400 none rfl (by decide)

/-- The examined prefix of the min-id scan holds at most one in-window message. -/
theorem findMinIdScan_once (start_date end_date : Int) (stream : List RawMsg) :
    (stream.take (findMinIdScan start_date end_date stream).2).countP
      (fun m => decide (start_date ≤ m.date ∧ m.date < end_date)) ≤ 1 := by
  induction stream with
  | nil => simp [findMinIdScan]
  | cons a rest ih =>
    by_cases h : start_date ≤ a.date ∧ a.date < end_date
    · simp [findMinIdScan, h, List.countP_cons]
    · simp only [findMinIdScan, if_neg h, List.take_succ_cons, List.countP_cons]
      rw [decide_eq_false h]
      simpa using ih

/-- When the min-id scan finds nothing it has iterated over the entire stream. -/
theorem findMinIdScan_none (start_date end_date : Int) (stream : List RawMsg)
    (h : (findMinIdScan start_date end_date stream).1 = none) :
    (findMinIdScan start_date end_date stream).2 = stream.length := by
  induction stream with
  | nil => simp [findMinIdScan]
  | cons a rest ih =>
    by_cases hp : start_date ≤ a.date ∧ a.date < end_date
    · simp [findMinIdScan, hp] at h
    · simp only [findMinIdScan, hp, if_neg, if_false, List.length_cons] at h ⊢
      exact congrArg (fun n => n + 1) (ih h)

/-- The examined prefix of the max-id scan holds at most one matching message. -/
theorem findMaxIdScan_once (end_date : Int) (stream : List RawMsg) :
    (stream.take (findMaxIdScan end_date stream).2).countP
      (fun m => decide (m.date < end_date)) ≤ 1 := by
  induction stream with
  | nil => simp [findMaxIdScan]
  | cons a rest ih =>
    by_cases h : a.date < end_date
    · simp [findMaxIdScan, h, List.countP_cons]
    · simp only [findMaxIdScan, if_neg h, List.take_succ_cons, List.countP_cons]
      rw [decide_eq_false h]
      simpa using ih

/-- When the max-id scan finds nothing it has iterated over the entire stream. -/
theorem findMaxIdScan_none (end_date : Int) (stream : List RawMsg)
    (h : (findMaxIdScan end_date stream).1 = none) :
    (findMaxIdScan end_date stream).2 = stream.length := by
  induction stream with
  | nil => simp [findMaxIdScan]
  | cons a rest ih =>
    by_cases hp : a.date < end_date
    · simp [findMaxIdScan, hp] at h
    · simp only [findMaxIdScan, hp, if_neg, if_false, List.length_cons] at h ⊢
      exact congrArg (fun n => n + 1) (ih h)

/-- C3 counterexample: on a stream whose very first message is dated at or past the
window end (end 50, first message dated 100), the min-id scan does not stop after
that first message — it iterates over both messages of the stream (and any longer
remainder), contrary to the claimed early exit; only the result, none, reports the
empty window. -/
theorem C3_no_early_exit_counterexample :
    ((streamLate.map RawMsg.date).head? = some 100) ∧
    ((50 : Int) ≤ 100) ∧
    ¬ (findMinIdScan 0 50 streamLate).2 = 1 ∧
    (findMinIdScan 0 50 streamLate) = (none, 2) := by decide

/-- C3 (amended): each of the two range-finding scans breaks out of its loop at the
first matching item, so the prefix of the stream it examines contains at most one
match and the remainder of the paginated stream is abandoned at that point; when no
item matches, however — in particular when the very first message already lies at or
beyond the window end — the scan iterates over the whole stream before returning
none, with no early exit on non-matching items. -/
theorem C3_early_exit_amended :
    (∀ (start_date end_date : Int) (stream : List RawMsg),
      ((stream.take (findMinIdScan start_date end_date stream).2).countP
        (fun m => decide (start_date ≤ m.date ∧ m.date < end_date)) ≤ 1) ∧
      ((findMinIdScan start_date end_date stream).1 = none →
        (findMinIdScan start_date end_date stream).2 = stream.length)) ∧
    (∀ (end_date : Int) (stream : List RawMsg),
      ((stream.take (findMaxIdScan end_date stream).2).countP
        (fun m => decide (m.date < end_date)) ≤ 1) ∧
      ((findMaxIdScan end_date stream).1 = none →
        (findMaxIdScan end_date stream).2 = stream.length)) :=
  ⟨fun s e stream => ⟨findMinIdScan_once s e stream, findMinIdScan_none s e stream⟩,
   fun e stream => ⟨findMaxIdScan_once e stream, findMaxIdScan_none e stream⟩⟩

/-- C3 witness: on the late stream the min-id scan matches nothing, examines both
items, and its examined prefix holds no match at all. -/
theorem C3_early_exit_amended_witness :
    (findMinIdScan 0 50 streamLate).2 = streamLate.length ∧
    ((streamLate.take (findMinIdScan 0 50 streamLate).2).countP
      (fun m => decide ((0 : Int) ≤ m.date ∧ m.date < 50)) ≤ 1) :=
  ⟨(C3_early_exit_amended.1 0 50 streamLate).2 (by decide),
   (C3_early_exit_amended.1 0 50 streamLate).1⟩

/-- C9: a resolved bound of message id 0 is conflated with absence by the falsy check
`if not min_id or not max_id`, so fetch_history short-circuits, leaving the object
untouched and accumulating no records, exactly as if no message had been found. -/
theorem C9_zero_id_short_circuit (g : TelegramGroup) (start_date end_date : Int)
    (lim : Option Nat)
    (h : minIdLookup g.client start_date end_date = some 0 ∨
         maxIdLookup g.client start_date end_date = some 0) :
    fetch_history g start_date end_date lim = g := by
  rcases h with h | h <;> simp [fetch_history, h, pyFalsyId]

/-- C9 witness: the chat whose only message has id 0 and lies inside the window from
0 to 10 still produces a short-circuited, record-free fetch. -/
theorem C9_zero_id_short_circuit_witness :
    fetch_history groupZeroId 0 10 none = groupZeroId :=
  C9_zero_id_short_circuit groupZeroId 0 10 none (Or.inl (by decide))

/-- C10: when either resolved bound is falsy (absent or 0), fetch_history returns
before the `self.history = []` reset, so the previously accumulated history of the
object is left in place for a later export. -/
theorem C10_history_frame (g : TelegramGroup) (start_date end_date : Int)
    (lim : Option Nat)
    (h : (pyFalsyId (minIdLookup g.client start_date end_date) ||
          pyFalsyId (maxIdLookup g.client start_date end_date)) = true) :
    (fetch_history g start_date end_date lim).history = g.history := by
  simp [fetch_history, h]

/-- C10 witness: a second fetch over an empty chat leaves the stale record of an
earlier fetch in the object's history. -/
theorem C10_history_frame_witness :
    (fetch_history groupStale 0 10 none).history = groupStale.history :=
  C10_history_frame groupStale 0 10 none (by decide)

/-- C6: when the range finder reports either bound absent, a fresh group's fetch
accumulates zero records, the JSON export of that history is the empty array, and
the CSV export is the header row alone. -/
theorem C6_empty_range_exports (g : TelegramGroup) (start_date end_date : Int)
    (lim : Option Nat) (hfresh : g.history = [])
    (habsent : minIdLookup g.client start_date end_date = none ∨
               maxIdLookup g.client start_date end_date = none) :
    (fetch_history g start_date end_date lim).history = [] ∧
    save_json (fetch_history g start_date end_date lim).history = JSON.jarr [] ∧
    save_csv (fetch_history g start_date end_date lim).history =
      [["id", "date", "sender_id", "sender_username", "reply_to", "message"]] := by
  have hshort : fetch_history g start_date end_date lim = g := by
    rcases habsent with h | h <;> simp [fetch_history, h, pyFalsyId]
  rw [hshort, hfresh]
  exact ⟨rfl, rfl, rfl⟩

/-- C6 witness: over the empty chat both bounds are absent and a fresh group exports
an empty JSON array and a header-only CSV. -/
theorem C6_empty_range_exports_witness :
    (fetch_history groupEmpty 0 10 none).history = [] ∧
    save_json (fetch_history groupEmpty 0 10 none).history = JSON.jarr [] ∧
    save_csv (fetch_history groupEmpty 0 10 none).history =
      [["id", "date", "sender_id", "sender_username", "reply_to", "message"]] :=
  C6_empty_range_exports groupEmpty 0 10 none rfl (Or.inl (by decide))

/-- C1: json.dump receives the list of Message dataclass instances, which the json
encoder cannot serialize natively, so every record falls through to the default=str
hook — the exported value is an array of repr strings, not an array of objects, and
re-parsing a one-record export yields a string carrying no id, message or sender_id
fields at all. -/
theorem C1_json_dump_writes_repr_strings :
    save_json [msgSolo] = JSON.jarr [JSON.jstr (messageRepr msgSolo)] ∧
    (∀ fields : List (String × JSON),
      JSON.jstr (messageRepr msgSolo) ≠ JSON.jobj fields) :=
  ⟨rfl, fun _ h => JSON.noConfusion h⟩

/-- C2: on the specification's own scenario chat the bounds resolve to min_id 1 and
max_id 4, yet the ranged request the source issues — min_id passed unchanged and
max_id + 1, against a client whose two id bounds are both exclusive — fetches ids 2,
3 and 4 only: the message whose id is the resolved min_id is never requested. -/
theorem C2_min_bound_excluded :
    minIdLookup chatScenario 0 86400 = some 1 ∧
    maxIdLookup chatScenario 0 86400 = some 4 ∧
    (iterMessagesRange chatScenario 1 (4 + 1) none).map RawMsg.id = [2, 3, 4] ∧
    (fetch_history groupScenario 0 86400 none).history.map Message.id = [2, 3, 4] := by
  decide

/-- C5 counterexample: the resolver accepts a start date of 2025-01-02 paired with an
end date of 2025-01-01 and returns that backwards window unvalidated, so the resolved
start is not below the resolved end. -/
theorem C5_window_not_validated :
    get_date_range argsBackwards 0 = some (dt20250102, dt20250101) ∧
    ¬ dt20250102.seconds < dt20250101.seconds := by decide

/-- C5 (amended): every window the resolver returns has both bounds timezone-aware
UTC, and in the --day branch start < end always holds; with --start and --end, however,
the source performs no ordering validation, so start < end is not guaranteed. -/
theorem C5_window_amended (args : Args) (nowSeconds : Int)
    (s e : PyDatetime) (h : get_date_range args nowSeconds = some (s, e)) :
    s.tz = some 0 ∧ e.tz = some 0 ∧
    (pyTruthyStr args.day = true → s.seconds < e.seconds) := by
  unfold get_date_range at h
  by_cases hd : pyTruthyStr args.day = true
  · rw [if_pos hd] at h
    cases hsd : strptimeDate (args.day.getD "") with
    | none => rw [hsd] at h; cases h
    | some d =>
      rw [hsd] at h
      simp only [Option.some.injEq, Prod.mk.injEq] at h
      obtain ⟨h1, h2⟩ := h
      subst h1; subst h2
      refine ⟨rfl, rfl, fun _ => ?_⟩
      simp [pyReplaceTzUtc, pyAddDays]
  · rw [if_neg hd] at h
    by_cases hs2 : pyTruthyStr args.start = true
    · rw [if_pos hs2] at h
      cases hsd : strptimeDate (args.start.getD "") with
      | none => rw [hsd] at h; cases h
      | some d =>
        rw [hsd] at h
        dsimp only at h
        by_cases he : pyTruthyStr args.end_ = true
        · rw [if_pos he] at h
          cases hed : strptimeDate (args.end_.getD "") with
          | none => rw [hed] at h; cases h
          | some d2 =>
            rw [hed] at h
            simp only [Option.some.injEq, Prod.mk.injEq] at h
            obtain ⟨h1, h2⟩ := h
            subst h1; subst h2
            exact ⟨rfl, rfl, fun hc => absurd hc hd⟩
        · rw [if_neg he] at h
          simp only [Option.some.injEq, Prod.mk.injEq] at h
          obtain ⟨h1, h2⟩ := h
          subst h1; subst h2
          exact ⟨rfl, rfl, fun hc => absurd hc hd⟩
    · rw [if_neg hs2] at h
      cases h

/-- C5 witness: the --day arguments for 2025-01-01 resolve to the aware UTC midnights
of 2025-01-01 and 2025-01-02, in order. -/
theorem C5_window_amended_witness :
    dt20250101.tz = some 0 ∧ dt20250102.tz = some 0 ∧
    (pyTruthyStr argsDay.day = true → dt20250101.seconds < dt20250102.seconds) :=
  C5_window_amended argsDay 0 dt20250101 dt20250102 (by decide)

/-- C7: the CSV export is the literal six-column header followed by one row per
record in order, and the message cell of a record whose text holds an embedded
newline is written with the newline replaced by a space and any carriage return
removed, keeping the record on a single row. -/
theorem C7_csv_format :
    (∀ history : List Message,
      save_csv history =
        ["id", "date", "sender_id", "sender_username", "reply_to", "message"]
          :: history.map csvRow) ∧
    (∀ history : List Message, (save_csv history).length = history.length + 1) ∧
    (∀ msg : Message, msg.message = "line1\nline2" →
      csvRow msg = [toString msg.id, msg.date_str, csvOptInt msg.sender_id,
        csvOptStr msg.sender_username, csvOptNat msg.reply_to_msg_id,
        "line1 line2"]) := by
  refine ⟨fun _ => rfl, fun history => by simp [save_csv], fun msg hmsg => ?_⟩
  simp only [csvRow, hmsg]
  have : sanitizeMessage "line1\nline2" = "line1 line2" := by decide
  rw [this]

/-- C7 witness: the multiline record's row carries the sanitized single-line text. -/
theorem C7_csv_format_witness :
    csvRow msgMultiline = [toString msgMultiline.id, msgMultiline.date_str,
      csvOptInt msgMultiline.sender_id, csvOptStr msgMultiline.sender_username,
      csvOptNat msgMultiline.reply_to_msg_id, "line1 line2"] :=
  C7_csv_format.2.2 msgMultiline rfl
